import Mathlib

/-!
A verification development for `gdown/download_folder.py`, a module that
reverse-engineers the listing page of a shared Google Drive folder, decodes
the embedded `_DRIVE_ivd` data blob into a tree of folder/file entries,
flattens the tree into an ordered list of filesystem actions and executes
those actions sequentially.

The Python module is shallowly embedded: text is modelled as `List Char`,
the mutable HTTP cookie jar as an explicit state threaded through calls,
exceptions as `Except Err`, and the unbounded Python recursion as
fuel-indexed structural recursion (fuel exhaustion plays the role of
Python's `RecursionError`).
-/

set_option maxRecDepth 8000

/-- Text is modelled at the character level, matching Python `str`. -/
abbrev Str := List Char

/-- Local filesystem paths as a list of components; `p / name` in
`pathlib` becomes appending one component. -/
abbrev FsPath := List Str

/-- The cookie jar of the module-level `requests.session()` object. -/
abbrev Jar := List (Str × Str)

/-- The ways the Python code can raise or signal failure.  Each
constructor corresponds to a concrete Python exception site:
`recursionError` models Python's stack overflow on unbounded recursion
(the Lean embedding runs out of fuel instead); `payloadNotFound` is the
`RuntimeError("Couldn't find the folder encoded JS string")`;
`structureNotFound` is the `RuntimeError("Didn't found _DRIVE_ivd script
tag")`; `unicodeDecodeError` is raised by `.decode("unicode_escape")`;
`malformedPayload` is `json.JSONDecodeError`; `titleUnparseable` is the
`ValueError("Folder name not parsed out ...")`; `indexError` is Python's
`IndexError` (note: it carries no positional information, exactly like
`IndexError("list index out of range")`); `typeError` is Python's
`TypeError` (e.g. `str + non-str`, iterating a non-iterable);
`appendedNone` marks the (provably unreachable) branch where the
recursive call would have returned `(True, None)`; `fileExists` and
`fileNotFound` are the `mkdir` OS errors. -/
inductive Err where
  | recursionError
  | payloadNotFound
  | structureNotFound
  | unicodeDecodeError
  | malformedPayload
  | titleUnparseable
  | indexError
  | typeError
  | appendedNone
  | fileExists
  | fileNotFound
deriving DecidableEq, Repr

/-- The generic JSON-like value produced by `json.loads`. -/
inductive Json where
  | null
  | bool (b : Bool)
  | num (n : Int)
  | str (s : Str)
  | arr (elems : List Json)
  | obj (fields : List (Str × Json))

/-- A node of the folder structure: the Python dict
`{"file_name": ..., "file_id": ..., "file_type": ..., "file_contents": ...}`.
`file_contents` is `none` for a file entry and a list for a folder. -/
inductive Node where
  | mk (file_name : Json) (file_id : Json) (file_type : Json)
       (file_contents : Option (List Node))

/-- Projection for the `"file_name"` key. -/
def Node.file_name : Node → Json
  | .mk nm _ _ _ => nm

/-- Projection for the `"file_id"` key. -/
def Node.file_id : Node → Json
  | .mk _ fid _ _ => fid

/-- Projection for the `"file_type"` key. -/
def Node.file_type : Node → Json
  | .mk _ _ ty _ => ty

/-- Projection for the `"file_contents"` key. -/
def Node.file_contents : Node → Option (List Node)
  | .mk _ _ _ c => c

/-- A fetched listing page, as seen through BeautifulSoup: the decoded
contents of its `<script>` tags in document order, and the text of its
`<title>` tag. -/
structure Page where
  scripts : List Str
  title : Str

/-- `folders_url = "https://drive.google.com/drive/folders/"` (39 chars). -/
def folders_url : Str := ("https://drive.google.com/drive/folders/").toList

/-- `files_url = "https://drive.google.com/uc?id="`. -/
def files_url : Str := ("https://drive.google.com/uc?id=").toList

/-- `folder_type = "application/vnd.google-apps.folder"`. -/
def folder_type : Str := ("application/vnd.google-apps.folder").toList

/-- The marker token `"_DRIVE_ivd"` searched for in script tags. -/
def drive_marker : Str := ("_DRIVE_ivd").toList

/-- Whether `needle` occurs at the start of `hay`. -/
def starts_list : Str → Str → Bool
  | [], _ => true
  | _ :: _, [] => false
  | a :: as, b :: bs => a == b && starts_list as bs

/-- Python's `needle in hay` substring test. -/
def contains_sub (needle : Str) : Str → Bool
  | [] => needle.isEmpty
  | c :: t => starts_list needle (c :: t) || contains_sub needle t

/-- The body scanner of `string_regex = r"'((?:[^'\\]|\\.)*)'"`: given the
text after an opening single quote, return the captured group together
with the text after the closing quote, or `none` when the quote is never
closed.  The regex is deterministic: an escaped pair `\c` must be
consumed as one unit, an unescaped `'` always closes the literal. -/
def match_body : Str → Option (Str × Str)
  | [] => none
  | '\'' :: rest => some ([], rest)
  | '\\' :: c :: rest =>
    match match_body rest with
    | some (b, r) => some ('\\' :: c :: b, r)
    | none => none
  | c :: rest =>
    match match_body rest with
    | some (b, r) => some (c :: b, r)
    | none => none

/-- `string_regex.finditer`: all non-overlapping single-quoted string
literals of the text, left to right.  Fuel-indexed so that the recursion
is structural; `find_js_strings` supplies enough fuel. -/
def find_literals : Nat → Str → List Str
  | 0, _ => []
  | _ + 1, [] => []
  | fuel + 1, '\'' :: rest =>
    match match_body rest with
    | some (b, r) => b :: find_literals fuel r
    | none => find_literals fuel rest
  | fuel + 1, _ :: rest => find_literals fuel rest

/-- All single-quoted string literals of a script text. -/
def find_js_strings (s : Str) : List Str := find_literals s.length s

/-- The first `<script>` whose contents contain `"_DRIVE_ivd"`; the
Python loop `for script in folder_soup.select("script")` with `break`. -/
def find_marker_script : List Str → Option Str
  | [] => none
  | s :: rest => if contains_sub drive_marker s then some s else find_marker_script rest

/-- Lines 58-76 of the source: locate the marker script and take the
second string literal in it (`next(islice(regex_iter, 1, None))`).  No
marker script raises `structureNotFound`; a marker script with fewer
than two literals raises `payloadNotFound` (`StopIteration` branch). -/
def extract_encoded_data (scripts : List Str) : Except Err Str :=
  match find_marker_script scripts with
  | none => .error .structureNotFound
  | some sc =>
    match (find_js_strings sc).get? 1 with
    | none => .error .payloadNotFound
    | some enc => .ok enc

/-- Hex digit value, or `none`. -/
def hex_digit (c : Char) : Option Nat :=
  if 48 ≤ c.toNat ∧ c.toNat ≤ 57 then some (c.toNat - 48)
  else if 97 ≤ c.toNat ∧ c.toNat ≤ 102 then some (c.toNat - 87)
  else if 65 ≤ c.toNat ∧ c.toNat ≤ 70 then some (c.toNat - 55)
  else none

/-- Whether `c` is an octal digit. -/
def is_octal (c : Char) : Bool := 48 ≤ c.toNat && c.toNat ≤ 55

/-- Octal digit value. -/
def octal_val (c : Char) : Nat := c.toNat - 48

/-- Single-character escapes of the `unicode_escape` codec. -/
def simple_escape (c : Char) : Option Char :=
  if c = 'n' then some '\n'
  else if c = 't' then some '\t'
  else if c = 'r' then some '\r'
  else if c = 'b' then some (Char.ofNat 8)
  else if c = 'f' then some (Char.ofNat 12)
  else if c = 'v' then some (Char.ofNat 11)
  else if c = 'a' then some (Char.ofNat 7)
  else if c = '\\' then some '\\'
  else if c = '\'' then some '\''
  else if c = '"' then some '"'
  else none

/-- `bytes(s, "utf-8").decode("unicode_escape")` (line 79), modelled for
the escape forms the codec understands: `\n`-style escapes, `\xhh`,
`\uhhhh`, octal escapes of up to three digits; an unknown escape keeps
the backslash, a truncated `\x`/`\u` or a trailing backslash raises
`UnicodeDecodeError`. -/
def unicode_unescape_f : Nat → Str → Except Err Str
  | 0, _ => .error .unicodeDecodeError
  | _ + 1, [] => .ok []
  | fuel + 1, '\\' :: 'u' :: a :: b :: c :: d :: rest =>
    match hex_digit a, hex_digit b, hex_digit c, hex_digit d with
    | some va, some vb, some vc, some vd =>
      match unicode_unescape_f fuel rest with
      | .ok t => .ok (Char.ofNat (va * 4096 + vb * 256 + vc * 16 + vd) :: t)
      | .error e => .error e
    | _, _, _, _ => .error .unicodeDecodeError
  | fuel + 1, '\\' :: 'x' :: a :: b :: rest =>
    match hex_digit a, hex_digit b with
    | some va, some vb =>
      match unicode_unescape_f fuel rest with
      | .ok t => .ok (Char.ofNat (va * 16 + vb) :: t)
      | .error e => .error e
    | _, _ => .error .unicodeDecodeError
  | fuel + 1, '\\' :: a :: rest =>
    if is_octal a then
      match rest with
      | b :: rest₂ =>
        if is_octal b then
          match rest₂ with
          | c :: rest₃ =>
            if is_octal c then
              match unicode_unescape_f fuel rest₃ with
              | .ok t => .ok (Char.ofNat (octal_val a * 64 + octal_val b * 8 + octal_val c) :: t)
              | .error e => .error e
            else
              match unicode_unescape_f fuel rest₂ with
              | .ok t => .ok (Char.ofNat (octal_val a * 8 + octal_val b) :: t)
              | .error e => .error e
          | [] => .ok [Char.ofNat (octal_val a * 8 + octal_val b)]
        else
          match unicode_unescape_f fuel rest with
          | .ok t => .ok (Char.ofNat (octal_val a) :: t)
          | .error e => .error e
      | [] => .ok [Char.ofNat (octal_val a)]
    else if a = 'u' ∨ a = 'x' ∨ a = 'U' ∨ a = 'N' then .error .unicodeDecodeError
    else
      match simple_escape a with
      | some c =>
        match unicode_unescape_f fuel rest with
        | .ok t => .ok (c :: t)
        | .error e => .error e
      | none =>
        match unicode_unescape_f fuel rest with
        | .ok t => .ok ('\\' :: a :: t)
        | .error e => .error e
  | _ + 1, '\\' :: [] => .error .unicodeDecodeError
  | fuel + 1, c :: rest =>
    match unicode_unescape_f fuel rest with
    | .ok t => .ok (c :: t)
    | .error e => .error e

/-- `bytes(s, "utf-8").decode("unicode_escape")` (line 79 of the source),
modelled at the character level for the escape forms the codec
understands: `\n`-style escapes, `\xhh`, `\uhhhh`, octal escapes of up
to three digits; an unknown escape keeps the backslash, a truncated
`\x`/`\u` or a trailing backslash raises `UnicodeDecodeError`.  Each
step consumes at least one character, so `s.length + 1` fuel always
suffices. -/
def unicode_unescape (s : Str) : Except Err Str := unicode_unescape_f (s.length + 1) s

/-- JSON whitespace skipping. -/
def skip_ws (s : Str) : Str :=
  s.dropWhile (fun c => c == ' ' || c == '\t' || c == '\n' || c == '\r')

/-- Scanner of a JSON double-quoted string body (after the opening
quote): returns the decoded characters and the text after the closing
quote.  Understands the escapes of the JSON grammar. -/
def json_string : Str → Except Err (Str × Str)
  | [] => .error .malformedPayload
  | '"' :: rest => .ok ([], rest)
  | '\\' :: 'u' :: a :: b :: c :: d :: rest =>
    match hex_digit a, hex_digit b, hex_digit c, hex_digit d with
    | some va, some vb, some vc, some vd =>
      match json_string rest with
      | .ok (t, r) => .ok (Char.ofNat (va * 4096 + vb * 256 + vc * 16 + vd) :: t, r)
      | .error e => .error e
    | _, _, _, _ => .error .malformedPayload
  | '\\' :: c :: rest =>
    if c = '"' ∨ c = '\\' ∨ c = '/' then
      match json_string rest with
      | .ok (t, r) => .ok (c :: t, r)
      | .error e => .error e
    else
      match simple_escape c with
      | some e =>
        match json_string rest with
        | .ok (t, r) => .ok (e :: t, r)
        | .error e => .error e
      | none => .error .malformedPayload
  | c :: rest =>
    match json_string rest with
    | .ok (t, r) => .ok (c :: t, r)
    | .error e => .error e

/-- Value of a (non-empty) list of decimal digits. -/
def digits_to_nat (ds : Str) : Nat :=
  ds.foldl (fun acc c => acc * 10 + (c.toNat - 48)) 0

/-- Left brace character, needed when a literal would be awkward. -/
def lbrace_char : Char := Char.ofNat 123

/-- Right brace character. -/
def rbrace_char : Char := Char.ofNat 125

/-- The alternation state of the JSON parser: parsing one value, or
continuing an array / object whose earlier elements are accumulated in
reverse. -/
inductive JMode where
  | value
  | arrTail (acc : List Json)
  | objTail (acc : List (Str × Json))

/-- Recursive-descent JSON parser, fuel-indexed so that the recursion is
structural.  Models the subset of `json.loads` the listing payload uses:
`null`, booleans, integers, strings, arrays and objects (floats are not
modelled).  Any syntax error is `malformedPayload`. -/
def json_parse : Nat → JMode → Str → Except Err (Json × Str)
  | 0, _, _ => .error .malformedPayload
  | fuel + 1, .value, s =>
    match skip_ws s with
    | 'n' :: 'u' :: 'l' :: 'l' :: r => .ok (.null, r)
    | 't' :: 'r' :: 'u' :: 'e' :: r => .ok (.bool true, r)
    | 'f' :: 'a' :: 'l' :: 's' :: 'e' :: r => .ok (.bool false, r)
    | '"' :: r =>
      match json_string r with
      | .ok (t, r₂) => .ok (.str t, r₂)
      | .error e => .error e
    | '[' :: r =>
      (match skip_ws r with
       | ']' :: r₂ => .ok (.arr [], r₂)
       | _ =>
         match json_parse fuel .value r with
         | .ok (v, r₂) => json_parse fuel (.arrTail [v]) r₂
         | .error e => .error e)
    | '-' :: r =>
      (match r.takeWhile Char.isDigit with
       | [] => .error .malformedPayload
       | ds => .ok (.num (-(digits_to_nat ds : Int)), r.dropWhile Char.isDigit))
    | c :: r =>
      if c.isDigit then
        .ok (.num (digits_to_nat ((c :: r).takeWhile Char.isDigit)),
             (c :: r).dropWhile Char.isDigit)
      else if c = lbrace_char then
        match skip_ws r with
        | c₂ :: r₂ =>
          if c₂ = rbrace_char then .ok (.obj [], r₂)
          else if c₂ = '"' then
            match json_string r₂ with
            | .ok (k, r₃) =>
              (match skip_ws r₃ with
               | ':' :: r₄ =>
                 match json_parse fuel .value r₄ with
                 | .ok (v, r₅) => json_parse fuel (.objTail [(k, v)]) r₅
                 | .error e => .error e
               | _ => .error .malformedPayload)
            | .error e => .error e
          else .error .malformedPayload
        | [] => .error .malformedPayload
      else .error .malformedPayload
    | [] => .error .malformedPayload
  | fuel + 1, .arrTail acc, s =>
    match skip_ws s with
    | ']' :: r => .ok (.arr acc.reverse, r)
    | ',' :: r =>
      match json_parse fuel .value r with
      | .ok (v, r₂) => json_parse fuel (.arrTail (v :: acc)) r₂
      | .error e => .error e
    | _ => .error .malformedPayload
  | fuel + 1, .objTail acc, s =>
    match skip_ws s with
    | c :: r =>
      if c = rbrace_char then .ok (.obj acc.reverse, r)
      else if c = ',' then
        match skip_ws r with
        | '"' :: r₂ =>
          match json_string r₂ with
          | .ok (k, r₃) =>
            (match skip_ws r₃ with
             | ':' :: r₄ =>
               match json_parse fuel .value r₄ with
               | .ok (v, r₅) => json_parse fuel (.objTail ((k, v) :: acc)) r₅
               | .error e => .error e
             | _ => .error .malformedPayload)
          | .error e => .error e
        | _ => .error .malformedPayload
      else .error .malformedPayload
    | [] => .error .malformedPayload

/-- `json.loads` (line 80 of the source): parse one JSON document and
require that only whitespace follows it. -/
def json_loads (s : Str) : Except Err Json :=
  match json_parse (2 * s.length + 2) .value s with
  | .error e => .error e
  | .ok (v, rest) => if skip_ws rest = [] then .ok v else .error .malformedPayload

/-- Python subscription `j[n]` on a decoded value: list indexing, string
indexing (yielding a one-character string), `IndexError` when out of
range, `TypeError` on a non-subscriptable value (the object case,
strictly a `KeyError` in Python, is likewise fatal). -/
def json_index (j : Json) (n : Nat) : Except Err Json :=
  match j with
  | .arr l =>
    match l.get? n with
    | some v => .ok v
    | none => .error .indexError
  | .str s =>
    match s.get? n with
    | some c => .ok (.str [c])
    | none => .error .indexError
  | _ => .error .typeError

/-- Python iteration over a decoded value: lists yield their elements,
strings their one-character substrings, dicts their keys; anything else
raises `TypeError`. -/
def json_iter : Json → Except Err (List Json)
  | .arr l => .ok l
  | .str s => .ok (s.map (fun c => .str [c]))
  | .obj fs => .ok (fs.map (fun p => .str p.1))
  | _ => .error .typeError

/-- Python `==` between a decoded value and a string constant. -/
def json_eq_str (j : Json) (s : Str) : Bool :=
  match j with
  | .str t => decide (t = s)
  | _ => false

/-- A list comprehension `[i[n] for i in rows]` (lines 94-96 of the
source): evaluated eagerly left to right, aborting at the first
exception. -/
def comprehension_index : List Json → Nat → Except Err (List Json)
  | [], _ => .ok []
  | r :: rest, n =>
    match json_index r n with
    | .error e => .error e
    | .ok v =>
      match comprehension_index rest n with
      | .error e => .error e
      | .ok vs => .ok (v :: vs)

/-- Lines 84-87 of the source: `folder_name_regex = r'^[^ ]+'` applied to
the page title; the match is the leading run of non-space characters and
the `ValueError` is raised when there is no match (empty title or title
starting with a space). -/
def parse_title (t : Str) : Except Err Str :=
  match t.takeWhile (fun c => !(c == ' ')) with
  | [] => .error .titleUnparseable
  | m => .ok m

/-- The entry-processing loop of `get_folder_list` (lines 98-131 of the
source), over the zipped id/name/type triples of the listing, threading
the Python `return_code` variable and the cookie jar.  `recur` is the
recursive `get_folder_list` call used for nested folders.  A non-folder
type appends a terminal child dict; a folder type first concatenates
`folders_url + id` (a `TypeError` for a non-string id), recurses, and on
a `False` return code aborts with `(False, None)` exactly as lines
128-129 do.  The `appendedNone` branch corresponds to the recursion
returning `(True, None)`, which the shape theorem below proves
unreachable. -/
def build_children (recur : Str → Jar → Except Err (Bool × Option Node × Jar)) :
    List (Json × Json × Json) → Bool → Jar → Except Err (Bool × Option (List Node) × Jar)
  | [], rc, jar => .ok (rc, some [], jar)
  | (fid, nm, ty) :: rest, rc, jar =>
    if json_eq_str ty folder_type then
      match fid with
      | .str s =>
        match recur (folders_url ++ s) jar with
        | .error e => .error e
        | .ok (rc', sub, jar') =>
          if rc' then
            match sub with
            | some n =>
              match build_children recur rest rc' jar' with
              | .error e => .error e
              | .ok (b, cs, jar'') => .ok (b, cs.map (fun l => n :: l), jar'')
            | none => .error .appendedNone
          else .ok (rc', none, jar')
      | _ => .error .typeError
    else
      if rc then
        match build_children recur rest rc jar with
        | .error e => .error e
        | .ok (b, cs, jar') => .ok (b, cs.map (fun l => Node.mk nm fid ty none :: l), jar')
      else .ok (rc, none, jar)

/-- The tail of `get_folder_list` after the page has been fetched,
decoded and titled (lines 82, 89-132 of the source): iterate the child
rows, evaluate the three positional comprehensions, run the entry loop
and assemble the folder dict `{"file_name": title-token, "file_id":
url[39:], "file_type": folder_type, "file_contents": children}`. -/
def process_rows (recur : Str → Jar → Except Err (Bool × Option Node × Jar))
    (url : Str) (fname : Str) (jar : Jar) (contents_j : Json) :
    Except Err (Bool × Option Node × Jar) :=
  match json_iter contents_j with
  | .error e => .error e
  | .ok rows =>
    match comprehension_index rows 0 with
    | .error e => .error e
    | .ok ids =>
      match comprehension_index rows 2 with
      | .error e => .error e
      | .ok names =>
        match comprehension_index rows 3 with
        | .error e => .error e
        | .ok types =>
          match build_children recur (ids.zip (names.zip types)) true jar with
          | .error e => .error e
          | .ok (rc, cs, jar') =>
            .ok (rc, cs.map (fun l =>
              Node.mk (.str fname) (.str (url.drop 39)) (.str folder_type) (some l)), jar')

/-- `get_folder_list` (lines 24-132 of the source).  `fetchP` models
`client.get`: given the cookie jar and a URL it returns the page (or
`none` for a non-200 status) and the possibly updated jar.  A non-200
status returns `(False, None)` (line 52); when `use_cookies` is false
the cookie jar is cleared right after the fetch (lines 55-56); then the
embedded structure is extracted, unescaped and JSON-decoded, the title
is parsed, and the rows are processed.  The fuel bounds the recursion
depth, standing in for Python's call stack. -/
def get_folder_list (fetchP : Jar → Str → Option Page × Jar) (use_cookies : Bool) :
    Nat → Jar → Str → Except Err (Bool × Option Node × Jar)
  | 0, _, _ => .error .recursionError
  | fuel + 1, jar, url =>
    match fetchP jar url with
    | (none, jar₁) => .ok (false, none, jar₁)
    | (some page, jar₁) =>
      match extract_encoded_data page.scripts with
      | .error e => .error e
      | .ok enc =>
        match unicode_unescape enc with
        | .error e => .error e
        | .ok dec =>
          match json_loads dec with
          | .error e => .error e
          | .ok folder_arr =>
            match json_index folder_arr 0 with
            | .error e => .error e
            | .ok first =>
              match parse_title page.title with
              | .error e => .error e
              | .ok fname =>
                process_rows (fun u j => get_folder_list fetchP use_cookies fuel j u)
                  url fname (if use_cookies then jar₁ else [])
                  (match first with | .null => Json.arr [] | _ => first)

/-- The loop of `get_directory_structure` (lines 151-164 of the source)
over the children of one folder dict: a folder-typed child contributes
`(None, parent/name)` followed by its recursively flattened contents; a
child with `None` contents contributes `(id, parent/name)`; a child that
is neither is skipped.  `pathlib`'s `/` needs a string name, so a
non-string name is a `TypeError`. -/
def gds_children (recur : Node → FsPath → Except Err (List (Option Json × FsPath))) :
    List Node → FsPath → Except Err (List (Option Json × FsPath))
  | [], _ => .ok []
  | c :: rest, prev =>
    match c with
    | .mk nm fid ty cont =>
      if json_eq_str ty folder_type then
        match nm with
        | .str s =>
          match recur c (prev ++ [s]) with
          | .error e => .error e
          | .ok sub =>
            match gds_children recur rest prev with
            | .error e => .error e
            | .ok tail => .ok ((none, prev ++ [s]) :: sub ++ tail)
        | _ => .error .typeError
      else
        match cont with
        | none =>
          match nm with
          | .str s =>
            match gds_children recur rest prev with
            | .error e => .error e
            | .ok tail => .ok ((some fid, prev ++ [s]) :: tail)
          | _ => .error .typeError
        | some _ => gds_children recur rest prev

/-- `get_directory_structure` (lines 135-164 of the source): flatten a
folder dict into the ordered `(file_id, file_path)` plan, where a `None`
id marks a directory to create.  Iterating `directory["file_contents"]`
requires it to be a list (`TypeError` on a terminal node). -/
def get_directory_structure : Nat → Node → FsPath → Except Err (List (Option Json × FsPath))
  | 0, _, _ => .error .recursionError
  | fuel + 1, dir, prev =>
    match dir with
    | .mk _ _ _ cont =>
      match cont with
      | none => .error .typeError
      | some cs => gds_children (fun n p => get_directory_structure fuel n p) cs prev

/-- The proper non-empty ancestor prefixes of a path (shortest first). -/
def path_ancestors : FsPath → List FsPath
  | [] => []
  | s :: rest => [s] :: (path_ancestors rest).map (fun p => s :: p)

/-- Modelled from `pathlib.Path.mkdir(parents=..., exist_ok=...)`, the
primitive invoked at line 229 of the source, over an abstract set of
existing directories: an existing target errors with `FileExistsError`
unless `exist_ok`; with `parents` the target and all its ancestors are
created; without `parents` a missing parent errors with
`FileNotFoundError`. -/
def path_mkdir (parents exist_ok : Bool) (p : FsPath) (dirs : List FsPath) :
    Except Err (List FsPath) :=
  if p ∈ dirs then
    if exist_ok then .ok dirs else .error .fileExists
  else if parents then .ok (p :: (path_ancestors p ++ dirs))
  else if p.dropLast ∈ dirs ∨ p.dropLast = [] then .ok (p :: dirs)
  else .error .fileNotFound

/-- The filesystem and network side effects accumulated by the action
loop of `download_folder`: the set of directories created so far and the
completed `download(...)` calls `(url, destination, use_cookies)`. -/
structure ExecState where
  dirs : List FsPath
  downloads : List (Str × FsPath × Bool)
deriving DecidableEq, Repr

/-- The action loop of `download_folder` (lines 227-247 of the source):
execute the plan strictly in order.  A `None` id runs
`file_path.mkdir(parents=True, exist_ok=True)`; otherwise
`download(files_url + file_id, ...)` is invoked through the injected
primitive `dl`, and a `False` result returns immediately with the
effects so far (no rollback, no retry, nothing further executed). -/
def run_actions (dl : Str → FsPath → Bool → Bool) (use_cookies : Bool) :
    List (Option Json × FsPath) → ExecState → Except Err (Bool × ExecState)
  | [], st => .ok (true, st)
  | (none, p) :: rest, st =>
    match path_mkdir true true p st.dirs with
    | .error e => .error e
    | .ok dirs' => run_actions dl use_cookies rest { st with dirs := dirs' }
  | (some fid, p) :: rest, st =>
    match fid with
    | .str s =>
      if dl (files_url ++ s) p use_cookies then
        run_actions dl use_cookies rest
          { st with downloads := st.downloads ++ [(files_url ++ s, p, use_cookies)] }
      else .ok (false, st)
    | _ => .error .typeError

/-- The structure-retrieval phase of `download_folder` (lines 203-223 of
the source): call `get_folder_list` with `use_cookies=False` — the
source hardcodes `False` at line 208 regardless of the caller's
`use_cookies` argument — then flatten the returned folder dict under
`output / folder_list["file_name"]`.  Returns `none` when
`get_folder_list` reported failure (the `return return_code` at line
212). -/
def download_folder_plan (fetchP : Jar → Str → Option Page × Jar) (fuel : Nat)
    (jar : Jar) (folder : Str) (output : FsPath) (use_cookies : Bool) :
    Except Err (Option (List (Option Json × FsPath))) :=
  match get_folder_list fetchP false fuel jar folder with
  | .error e => .error e
  | .ok (false, _, _) => .ok none
  | .ok (true, some fl, _) =>
    (match fl.file_name with
     | .str nm =>
       match get_directory_structure fuel fl (output ++ [nm]) with
       | .error e => .error e
       | .ok ds => .ok (some ds)
     | _ => .error .typeError)
  | .ok (true, none, _) => .error .appendedNone

/-- `download_folder` (lines 167-247 of the source): retrieve the
listing and plan (with the listing fetch always using
`use_cookies=False`), then execute the plan; the caller's `use_cookies`
argument reaches only the per-file `download(...)` calls.  `output` is
the already-resolved output root (`Path.cwd()` or `Path(output)`). -/
def download_folder (fetchP : Jar → Str → Option Page × Jar)
    (dl : Str → FsPath → Bool → Bool) (fuel : Nat) (jar : Jar) (folder : Str)
    (output : FsPath) (use_cookies : Bool) : Except Err (Bool × ExecState) :=
  match download_folder_plan fetchP fuel jar folder output use_cookies with
  | .error e => .error e
  | .ok none => .ok (false, ⟨[], []⟩)
  | .ok (some ds) => run_actions dl use_cookies ds ⟨[], []⟩

/-- The invariant of claim C7 over a fully resolved tree: a node whose
type string is not the folder MIME constant is terminal (`None`
contents), a node whose type string is the folder MIME constant has a
(possibly empty) children list, recursively. -/
inductive NodeInv : Node → Prop where
  | file : ∀ nm fid ty, ty ≠ Json.str folder_type → NodeInv (Node.mk nm fid ty none)
  | folder : ∀ nm fid cs, (∀ c ∈ cs, NodeInv c) →
      NodeInv (Node.mk nm fid (Json.str folder_type) (some cs))

/-! ### Concrete fixtures

Synthetic remote folders used to witness and refute the claims.  Each
page's script holds the marker literal and the encoded payload exactly
as the Drive listing page does. -/

/-- URL of the C1 synthetic root folder (id `ROOT`). -/
def c1_root_url : Str := folders_url ++ ("ROOT").toList

/-- URL of the C1 synthetic subfolder (id `SUB`). -/
def c1_sub_url : Str := folders_url ++ ("SUB").toList

/-- Script of the C1 root page: one subfolder row and one file row. -/
def c1_root_script : Str :=
  ("var ivd = '_DRIVE_ivd'; var data = '[[[\"SUB\",null,\"sub\",\"application/vnd.google-apps.folder\"],[\"idC\",null,\"fileC\",\"text/plain\"]]]';").toList

/-- Script of the C1 subfolder page: two file rows. -/
def c1_sub_script : Str :=
  ("var ivd = '_DRIVE_ivd'; var data = '[[[\"idA\",null,\"fileA\",\"text/plain\"],[\"idB\",null,\"fileB\",\"text/plain\"]]]';").toList

/-- The C1 root listing page. -/
def c1_root_page : Page := ⟨[c1_root_script], ("root - Google Drive").toList⟩

/-- The C1 subfolder listing page. -/
def c1_sub_page : Page := ⟨[c1_sub_script], ("sub - Google Drive").toList⟩

/-- The C1 remote: two pages, anything else is a non-200 status. -/
def c1_fetch : Jar → Str → Option Page × Jar := fun jar url =>
  if url = c1_root_url then (some c1_root_page, jar)
  else if url = c1_sub_url then (some c1_sub_page, jar)
  else (none, jar)

/-- The resolved C1 subfolder node. -/
def c1_sub_node : Node :=
  .mk (.str ("sub").toList) (.str ("SUB").toList) (.str folder_type)
    (some [.mk (.str ("fileA").toList) (.str ("idA").toList) (.str ("text/plain").toList) none,
           .mk (.str ("fileB").toList) (.str ("idB").toList) (.str ("text/plain").toList) none])

/-- The resolved C1 root node. -/
def c1_root_node : Node :=
  .mk (.str ("root").toList) (.str ("ROOT").toList) (.str folder_type)
    (some [c1_sub_node,
           .mk (.str ("fileC").toList) (.str ("idC").toList) (.str ("text/plain").toList) none])

/-- The plan the code actually produces for the C1 tree. -/
def c1_actual_plan : List (Option Json × FsPath) :=
  [(none, [("root").toList, ("sub").toList]),
   (some (Json.str ("idA").toList), [("root").toList, ("sub").toList, ("fileA").toList]),
   (some (Json.str ("idB").toList), [("root").toList, ("sub").toList, ("fileB").toList]),
   (some (Json.str ("idC").toList), [("root").toList, ("fileC").toList])]

/-- The plan claim C1 asserts: the same with the root's own `MkDir`
first. -/
def c1_claimed_plan : List (Option Json × FsPath) :=
  (none, [("root").toList]) :: c1_actual_plan

/-- URL of the C2 empty folder (id `EMPTY`). -/
def c2_url : Str := folders_url ++ ("EMPTY").toList

/-- The C2 page: the decoded payload is `[null]`, i.e. the root array's
first element is null (zero child entries). -/
def c2_page : Page :=
  ⟨[("var ivd = '_DRIVE_ivd'; var data = '[null]';").toList],
   ("empty - Google Drive").toList⟩

/-- The C2 remote. -/
def c2_fetch : Jar → Str → Option Page × Jar := fun jar url =>
  if url = c2_url then (some c2_page, jar) else (none, jar)

/-- The node the code builds for the C2 empty listing. -/
def c2_node : Node :=
  .mk (.str ("empty").toList) (.str ("EMPTY").toList) (.str folder_type) (some [])

/-- URL of the C3 root folder (id `ROOT3`). -/
def c3_root_url : Str := folders_url ++ ("ROOT3").toList

/-- URL of the resolvable C3 subfolder. -/
def c3_ok_url : Str := folders_url ++ ("OKID").toList

/-- The C3 root page: two subfolder rows; the second one's fetch fails. -/
def c3_root_page : Page :=
  ⟨[("var ivd = '_DRIVE_ivd'; var data = '[[[\"OKID\",null,\"okname\",\"application/vnd.google-apps.folder\"],[\"BADID\",null,\"badname\",\"application/vnd.google-apps.folder\"]]]';").toList],
   ("root3 - Google Drive").toList⟩

/-- The C3 resolvable subfolder page (empty listing). -/
def c3_ok_page : Page :=
  ⟨[("var ivd = '_DRIVE_ivd'; var data = '[null]';").toList],
   ("ok - Google Drive").toList⟩

/-- The C3 remote: the `BADID` folder URL answers with a non-200
status. -/
def c3_fetch : Jar → Str → Option Page × Jar := fun jar url =>
  if url = c3_root_url then (some c3_root_page, jar)
  else if url = c3_ok_url then (some c3_ok_page, jar)
  else (none, jar)

/-- The already-resolved first sibling of the C3 root. -/
def c3_ok_node : Node :=
  .mk (.str ("ok").toList) (.str ("OKID").toList) (.str folder_type) (some [])

/-- The C5 first page: its only child row is `["x"]`, so the name/type
positions are missing (offending row index 0). -/
def c5a_page : Page :=
  ⟨[("var ivd = '_DRIVE_ivd'; var data = '[[[\"x\"]]]';").toList],
   ("bad - Google Drive").toList⟩

/-- The C5 second page: the row at index 0 is well formed and the row at
index 1 is `["y"]` (offending row index 1). -/
def c5b_page : Page :=
  ⟨[("var ivd = '_DRIVE_ivd'; var data = '[[[\"id0\",null,\"n0\",\"t0\"],[\"y\"]]]';").toList],
   ("bad2 - Google Drive").toList⟩

/-- URL of the C5 folders. -/
def c5_url : Str := folders_url ++ ("BADROWS").toList

/-- Remote serving the first C5 page. -/
def c5a_fetch : Jar → Str → Option Page × Jar := fun jar url =>
  if url = c5_url then (some c5a_page, jar) else (none, jar)

/-- Remote serving the second C5 page. -/
def c5b_fetch : Jar → Str → Option Page × Jar := fun jar url =>
  if url = c5_url then (some c5b_page, jar) else (none, jar)

/-- URL of the small fixture shared by the C7 and C9 witnesses. -/
def c79_url : Str := folders_url ++ ("SMALL").toList

/-- A one-file listing page. -/
def c79_page : Page :=
  ⟨[("var ivd = '_DRIVE_ivd'; var data = '[[[\"F1\",null,\"f1\",\"text/plain\"]]]';").toList],
   ("small - Google Drive").toList⟩

/-- Remote serving the one-file listing. -/
def c79_fetch : Jar → Str → Option Page × Jar := fun jar url =>
  if url = c79_url then (some c79_page, jar) else (none, jar)

/-- The node built from the one-file listing. -/
def c79_node : Node :=
  .mk (.str ("small").toList) (.str ("SMALL").toList) (.str folder_type)
    (some [.mk (.str ("f1").toList) (.str ("F1").toList) (.str ("text/plain").toList) none])

/-- The C4 download primitive: every fetch succeeds except file id
`f2`. -/
def c4_dl : Str → FsPath → Bool → Bool := fun u _ _ =>
  !decide (u = files_url ++ ("f2").toList)

/-! ### Helper lemmas -/

/-- `json_eq_str` decides equality with a string value. -/
theorem json_eq_str_true_iff (j : Json) (s : Str) :
    json_eq_str j s = true ↔ j = .str s := by
  cases j <;> simp [json_eq_str]

/-- A false `json_eq_str` refutes equality with the string value. -/
theorem json_eq_str_false (j : Json) (s : Str) (h : json_eq_str j s = false) :
    j ≠ .str s := by
  intro hj
  rw [hj] at h
  simp [json_eq_str] at h

/-- `mkdir(parents=True, exist_ok=True)` never fails. -/
theorem path_mkdir_always_ok (p : FsPath) (dirs : List FsPath) :
    ∃ d, path_mkdir true true p dirs = .ok d := by
  by_cases h : p ∈ dirs <;> simp [path_mkdir, h]

/-- `find_marker_script` returns `none` exactly when no script contains
the marker. -/
theorem find_marker_script_none_iff (ss : List Str) :
    find_marker_script ss = none ↔ ∀ s ∈ ss, contains_sub drive_marker s = false := by
  induction ss with
  | nil => simp [find_marker_script]
  | cons s rest ih =>
    by_cases h : contains_sub drive_marker s = true
    · simp [find_marker_script, h]
    · simp only [Bool.not_eq_true] at h
      simp [find_marker_script, h, ih]

/-! ### Claim C8 -/

/-- Claim C8: for every path, running the plan's `MkDir` action — that
is, `path_mkdir` with `parents=True, exist_ok=True`, the exact flags of
line 229 of the source — twice in succession on the same path never
fails: the first call succeeds from any starting state and the second
call succeeds (and changes nothing) on the resulting state. -/
theorem mkdir_twice_never_fails (p : FsPath) (dirs : List FsPath) :
    ∃ d, path_mkdir true true p dirs = .ok d ∧ path_mkdir true true p d = .ok d := by
  by_cases h : p ∈ dirs
  · exact ⟨dirs, by simp [path_mkdir, h], by simp [path_mkdir, h]⟩
  · refine ⟨p :: (path_ancestors p ++ dirs), by simp [path_mkdir, h], ?_⟩
    have hmem : p ∈ p :: (path_ancestors p ++ dirs) := List.mem_cons_self _ _
    simp [path_mkdir, hmem]

/-! ### Claim C10 -/

/-- Claim C10: the folder-structure retrieval phase of `download_folder`
is independent of the caller's `use_cookies` argument — the source
hardcodes `use_cookies=False` in the `get_folder_list` call — and the
whole of `download_folder` factors as that cookie-independent phase
followed by the action loop, which is the only place the caller's
`use_cookies` is consulted (it is forwarded to each `download(...)`
call). -/
theorem download_folder_listing_cookie_independent
    (fetchP : Jar → Str → Option Page × Jar) (dl : Str → FsPath → Bool → Bool)
    (fuel : Nat) (jar : Jar) (folder : Str) (output : FsPath) (uc₁ uc₂ : Bool) :
    download_folder_plan fetchP fuel jar folder output uc₁ =
      download_folder_plan fetchP fuel jar folder output uc₂ ∧
    download_folder fetchP dl fuel jar folder output uc₁ =
      (match download_folder_plan fetchP fuel jar folder output uc₂ with
       | .error e => .error e
       | .ok none => .ok (false, ⟨[], []⟩)
       | .ok (some ds) => run_actions dl uc₁ ds ⟨[], []⟩) :=
  ⟨rfl, rfl⟩

/-! ### Claim C6 -/

/-- Claim C6: for every fetched page, extraction fails with
`structureNotFound` exactly when no script block contains the
`_DRIVE_ivd` marker token, and fails with `payloadNotFound` exactly when
a marker script block is found (the first such block, the one the loop
processes before `break`) but it contains fewer than two single-quoted
string literals. -/
theorem extract_failure_modes (page : Page) :
    (extract_encoded_data page.scripts = .error .structureNotFound ↔
      ∀ s ∈ page.scripts, contains_sub drive_marker s = false) ∧
    (extract_encoded_data page.scripts = .error .payloadNotFound ↔
      ∃ sc, find_marker_script page.scripts = some sc ∧
        (find_js_strings sc).length < 2) := by
  have key := find_marker_script_none_iff page.scripts
  cases hfm : find_marker_script page.scripts with
  | none =>
    constructor
    · simpa [extract_encoded_data, hfm] using key.mp hfm
    · simp [extract_encoded_data, hfm]
  | some sc =>
    rw [hfm] at key
    constructor
    · cases hg : (find_js_strings sc).get? 1 with
      | none =>
        simp only [extract_encoded_data, hfm, hg]
        constructor
        · intro h
          exact absurd h (by simp)
        · intro h
          exact absurd (key.mpr h) (by simp)
      | some enc =>
        simp only [extract_encoded_data, hfm, hg]
        constructor
        · intro h
          exact absurd h (by simp)
        · intro h
          exact absurd (key.mpr h) (by simp)
    · cases hg : (find_js_strings sc).get? 1 with
      | none =>
        simp only [extract_encoded_data, hfm, hg]
        constructor
        · intro _
          refine ⟨sc, rfl, ?_⟩
          have := List.get?_eq_none.mp hg
          omega
        · intro _
          trivial
      | some enc =>
        simp only [extract_encoded_data, hfm, hg]
        constructor
        · intro h
          exact absurd h (by simp)
        · rintro ⟨sc', hsc, hlen⟩
          injection hsc with hsc
          subst hsc
          obtain ⟨hlt, -⟩ := List.get?_eq_some.mp hg
          omega

/-! ### Claim C4 -/

/-- Claim C4: the action loop executes the plan strictly in order, and a
failing `FetchFile` aborts the whole run with an overall `False`: the
final state is exactly the state reached after the actions before the
failing one (their side effects persist, nothing is rolled back or
retried, the failing download leaves nothing), and no action after the
failing one is ever executed — the result does not depend on `post` at
all. -/
theorem run_actions_fetch_failure_aborts
    (dl : Str → FsPath → Bool → Bool) (uc : Bool) (st : ExecState)
    (pre : List (Option Json × FsPath)) (fid : Str) (p : FsPath)
    (post : List (Option Json × FsPath))
    (hpre : ∀ x ∈ pre, x.1 = none ∨
      ∃ q pth, x = (some (Json.str q), pth) ∧ dl (files_url ++ q) pth uc = true)
    (hfail : dl (files_url ++ fid) p uc = false) :
    ∃ st', run_actions dl uc pre st = .ok (true, st') ∧
      run_actions dl uc (pre ++ (some (Json.str fid), p) :: post) st = .ok (false, st') := by
  revert hpre
  induction pre generalizing st with
  | nil =>
    intro _
    refine ⟨st, rfl, ?_⟩
    simp [run_actions, hfail]
  | cons x pre ih =>
    intro hpre
    obtain hx | ⟨q, pth, hxq, hdl⟩ := hpre x (by simp)
    · obtain ⟨x1, x2⟩ := x
      simp only at hx
      subst hx
      obtain ⟨d, hd⟩ := path_mkdir_always_ok x2 st.dirs
      obtain ⟨st', h1, h2⟩ := ih { st with dirs := d } (fun y hy => hpre y (by simp [hy]))
      refine ⟨st', ?_, ?_⟩
      · simpa [run_actions, hd] using h1
      · simpa [run_actions, hd] using h2
    · subst hxq
      obtain ⟨st', h1, h2⟩ :=
        ih { st with downloads := st.downloads ++ [(files_url ++ q, pth, uc)] }
          (fun y hy => hpre y (by simp [hy]))
      refine ⟨st', ?_, ?_⟩
      · simpa [run_actions, hdl] using h1
      · simpa [run_actions, hdl] using h2

/-- Witness for C4: a three-action plan — create `d1`, fetch `f2`
(which fails), fetch `f3` — executed from the empty state: the first
action's directory persists in the final state, the third action never
runs, and the overall result is `False`. -/
theorem run_actions_fetch_failure_aborts_witness :
    ∃ st', run_actions c4_dl false [(none, [("d1").toList])] ⟨[], []⟩ = .ok (true, st') ∧
      run_actions c4_dl false
        ([(none, [("d1").toList])] ++
          (some (Json.str ("f2").toList), [("out").toList, ("f2").toList]) ::
            [(some (Json.str ("f3").toList), [("out").toList, ("f3").toList])])
        ⟨[], []⟩ = .ok (false, st') :=
  run_actions_fetch_failure_aborts c4_dl false ⟨[], []⟩
    [(none, [("d1").toList])] ("f2").toList [("out").toList, ("f2").toList]
    [(some (Json.str ("f3").toList), [("out").toList, ("f3").toList])]
    (by
      intro x hx
      simp only [List.mem_singleton] at hx
      subst hx
      exact Or.inl rfl)
    (by decide)
theorem build_children_shape
    (recur : Str → Jar → Except Err (Bool × Option Node × Jar))
    (hrec : ∀ u j b t j', recur u j = .ok (b, t, j') →
      (b = true ∧ ∃ n, t = some n) ∨ (b = false ∧ t = none)) :
    ∀ rows jar b cs j, build_children recur rows true jar = .ok (b, cs, j) →
      (b = true ∧ ∃ l, cs = some l) ∨ (b = false ∧ cs = none) := by
  intro rows
  induction rows with
  | nil =>
    intro jar b cs j h
    simp only [build_children, Except.ok.injEq, Prod.mk.injEq] at h
    exact Or.inl ⟨h.1.symm, ⟨[], h.2.1.symm⟩⟩
  | cons row rest ih =>
    intro jar b cs j h
    obtain ⟨fid, nm, ty⟩ := row
    simp only [build_children] at h
    split at h
    · -- folder-typed row
      split at h
      · -- fid = .str s
        rename_i s
        split at h
        · exact absurd h (by simp)
        · rename_i heq
          split at h
          · -- rc' = true
            rename_i hrc
            subst hrc
            split at h
            · -- sub = some n
              rename_i n
              split at h
              · exact absurd h (by simp)
              · rename_i heq₂
                simp only [Except.ok.injEq, Prod.mk.injEq] at h
                obtain ⟨hb, hcs, hj⟩ := h
                rcases ih _ _ _ _ heq₂ with ⟨hb₂, l, hl⟩ | ⟨hb₂, hl⟩
                · subst hl
                  exact Or.inl ⟨hb.symm.trans hb₂, ⟨n :: l, hcs.symm⟩⟩
                · subst hl
                  exact Or.inr ⟨hb.symm.trans hb₂, hcs.symm⟩
            · exact absurd h (by simp)
          · -- rc' = false
            rename_i hrc
            simp only [Bool.not_eq_true] at hrc
            simp only [Except.ok.injEq, Prod.mk.injEq] at h
            obtain ⟨hb, hcs, hj⟩ := h
            exact Or.inr ⟨hb.symm.trans hrc, hcs.symm⟩
      · exact absurd h (by simp)
    · -- file-typed row
      simp only [if_true] at h
      split at h
      · exact absurd h (by simp)
      · rename_i heq₂
        simp only [Except.ok.injEq, Prod.mk.injEq] at h
        obtain ⟨hb, hcs, hj⟩ := h
        rcases ih _ _ _ _ heq₂ with ⟨hb₂, l, hl⟩ | ⟨hb₂, hl⟩
        · subst hl
          exact Or.inl ⟨hb.symm.trans hb₂, ⟨_ :: l, hcs.symm⟩⟩
        · subst hl
          exact Or.inr ⟨hb.symm.trans hb₂, hcs.symm⟩

/-- `process_rows` preserves the return shape of `get_folder_list`. -/
theorem process_rows_shape
    (recur : Str → Jar → Except Err (Bool × Option Node × Jar))
    (hrec : ∀ u j b t j', recur u j = .ok (b, t, j') →
      (b = true ∧ ∃ n, t = some n) ∨ (b = false ∧ t = none))
    (url fname : Str) (jar : Jar) (cj : Json) (b : Bool) (t : Option Node) (j : Jar) :
    process_rows recur url fname jar cj = .ok (b, t, j) →
      (b = true ∧ ∃ n, t = some n) ∨ (b = false ∧ t = none) := by
  intro h
  simp only [process_rows] at h
  split at h
  · exact absurd h (by simp)
  · split at h
    · exact absurd h (by simp)
    · split at h
      · exact absurd h (by simp)
      · split at h
        · exact absurd h (by simp)
        · split at h
          · exact absurd h (by simp)
          · rename_i heq
            simp only [Except.ok.injEq, Prod.mk.injEq] at h
            obtain ⟨hb, ht, hj⟩ := h
            rcases build_children_shape recur hrec _ _ _ _ _ heq with ⟨hb₂, l, hl⟩ | ⟨hb₂, hl⟩
            · subst hl
              exact Or.inl ⟨hb.symm.trans hb₂, ⟨_, ht.symm⟩⟩
            · subst hl
              exact Or.inr ⟨hb.symm.trans hb₂, ht.symm⟩

/-- Claim C9: every return of `get_folder_list` is either
`(True, folder-dict)` or `(False, None)` — never `(True, None)` and
never `(False, dict)`.  (Raised exceptions are the `.error` case and are
not returns.) -/
theorem get_folder_list_shape :
    ∀ (fuel : Nat) (fetchP : Jar → Str → Option Page × Jar) (uc : Bool) (jar : Jar)
      (url : Str) (b : Bool) (t : Option Node) (j : Jar),
      get_folder_list fetchP uc fuel jar url = .ok (b, t, j) →
      (b = true ∧ ∃ n, t = some n) ∨ (b = false ∧ t = none) := by
  intro fuel
  induction fuel with
  | zero =>
    intro fetchP uc jar url b t j h
    exact absurd h (by simp [get_folder_list])
  | succ fuel ih =>
    intro fetchP uc jar url b t j h
    simp only [get_folder_list] at h
    split at h
    · simp only [Except.ok.injEq, Prod.mk.injEq] at h
      exact Or.inr ⟨h.1.symm, h.2.1.symm⟩
    · split at h
      · exact absurd h (by simp)
      · split at h
        · exact absurd h (by simp)
        · split at h
          · exact absurd h (by simp)
          · split at h
            · exact absurd h (by simp)
            · split at h
              · exact absurd h (by simp)
              · exact process_rows_shape _
                  (fun u j b t j' hh => ih fetchP uc j u b t j' hh) _ _ _ _ _ _ _ h

/-- Witness for C9 at the one-file fixture: the shape disjunction holds
for the concrete successful return `(True, some c79_node)`. -/
theorem get_folder_list_shape_witness :
    (true = true ∧ ∃ n, (some c79_node : Option Node) = some n) ∨
      (true = false ∧ (some c79_node : Option Node) = none) :=
  get_folder_list_shape 1 c79_fetch false [] c79_url true (some c79_node) [] rfl

/-- The entry loop only appends children satisfying the C7 invariant:
file-typed rows become terminal nodes, folder-typed rows are resolved
recursively. -/
theorem build_children_inv
    (recur : Str → Jar → Except Err (Bool × Option Node × Jar))
    (hrec : ∀ u j b n j', recur u j = .ok (b, some n, j') → NodeInv n) :
    ∀ rows jar b cs j, build_children recur rows true jar = .ok (b, some cs, j) →
      ∀ c ∈ cs, NodeInv c := by
  intro rows
  induction rows with
  | nil =>
    intro jar b cs j h
    simp only [build_children, Except.ok.injEq, Prod.mk.injEq, Option.some.injEq] at h
    obtain ⟨hb, hcs, hj⟩ := h
    subst hcs
    intro c hc
    exact absurd hc (by simp)
  | cons row rest ih =>
    intro jar b cs j h
    obtain ⟨fid, nm, ty⟩ := row
    simp only [build_children] at h
    split at h
    · -- folder-typed row
      split at h
      · rename_i s
        split at h
        · exact absurd h (by simp)
        · rename_i heq
          split at h
          · rename_i hrc
            subst hrc
            split at h
            · rename_i n
              split at h
              · exact absurd h (by simp)
              · rename_i heq₂
                simp only [Except.ok.injEq, Prod.mk.injEq] at h
                obtain ⟨hb, hcs, hj⟩ := h
                rename_i b₂ cs₂ jar₂
                cases cs₂ with
                | none => exact absurd hcs (by simp)
                | some l =>
                  simp only [Option.map, Option.some.injEq] at hcs
                  subst hcs
                  intro c hc
                  rcases List.mem_cons.mp hc with hc | hc
                  · subst hc
                    exact hrec _ _ _ _ _ heq
                  · exact ih _ _ _ _ heq₂ c hc
            · exact absurd h (by simp)
          · -- rc' = false: result (rc', none, jar'), contradicts some cs
            simp only [Except.ok.injEq, Prod.mk.injEq] at h
            exact absurd h.2.1 (by simp)
      · exact absurd h (by simp)
    · -- file-typed row
      rename_i hty
      simp only [Bool.not_eq_true] at hty
      simp only [if_true] at h
      split at h
      · exact absurd h (by simp)
      · rename_i heq₂
        simp only [Except.ok.injEq, Prod.mk.injEq] at h
        obtain ⟨hb, hcs, hj⟩ := h
        rename_i b₂ cs₂ jar₂
        cases cs₂ with
        | none => exact absurd hcs (by simp)
        | some l =>
          simp only [Option.map, Option.some.injEq] at hcs
          subst hcs
          intro c hc
          rcases List.mem_cons.mp hc with hc | hc
          · subst hc
            exact NodeInv.file nm fid ty (json_eq_str_false ty folder_type hty)
          · exact ih _ _ _ _ heq₂ c hc

/-- The node assembled by `process_rows` satisfies the C7 invariant. -/
theorem process_rows_inv
    (recur : Str → Jar → Except Err (Bool × Option Node × Jar))
    (hrec : ∀ u j b n j', recur u j = .ok (b, some n, j') → NodeInv n)
    (url fname : Str) (jar : Jar) (cj : Json) (b : Bool) (n : Node) (j : Jar) :
    process_rows recur url fname jar cj = .ok (b, some n, j) → NodeInv n := by
  intro h
  simp only [process_rows] at h
  split at h
  · exact absurd h (by simp)
  · split at h
    · exact absurd h (by simp)
    · split at h
      · exact absurd h (by simp)
      · split at h
        · exact absurd h (by simp)
        · split at h
          · exact absurd h (by simp)
          · rename_i heq
            simp only [Except.ok.injEq, Prod.mk.injEq] at h
            obtain ⟨hb, ht, hj⟩ := h
            rename_i b₂ cs₂ jar₂
            cases cs₂ with
            | none => exact absurd ht (by simp)
            | some l =>
              simp only [Option.map, Option.some.injEq] at ht
              subst ht
              exact NodeInv.folder _ _ l (build_children_inv recur hrec _ _ _ _ _ heq)

/-- Claim C7: in every tree returned by a successful build, each node
whose type string equals the folder MIME constant has non-null
(possibly empty) children, and every other node has null children —
for the root and all descendants (`NodeInv`). -/
theorem get_folder_list_tree_inv :
    ∀ (fuel : Nat) (fetchP : Jar → Str → Option Page × Jar) (uc : Bool) (jar : Jar)
      (url : Str) (b : Bool) (n : Node) (j : Jar),
      get_folder_list fetchP uc fuel jar url = .ok (b, some n, j) → NodeInv n := by
  intro fuel
  induction fuel with
  | zero =>
    intro fetchP uc jar url b n j h
    exact absurd h (by simp [get_folder_list])
  | succ fuel ih =>
    intro fetchP uc jar url b n j h
    simp only [get_folder_list] at h
    split at h
    · simp only [Except.ok.injEq, Prod.mk.injEq] at h
      exact absurd h.2.1 (by simp)
    · split at h
      · exact absurd h (by simp)
      · split at h
        · exact absurd h (by simp)
        · split at h
          · exact absurd h (by simp)
          · split at h
            · exact absurd h (by simp)
            · split at h
              · exact absurd h (by simp)
              · exact process_rows_inv _
                  (fun u j b n j' hh => ih fetchP uc j u b n j' hh) _ _ _ _ _ _ _ h

/-- Witness for C7: the invariant of the concrete tree built from the
one-file fixture. -/
theorem get_folder_list_tree_inv_witness : NodeInv c79_node :=
  get_folder_list_tree_inv 1 c79_fetch false [] c79_url true c79_node [] rfl

/-! ### Claims C2, C3 and C5 -/

/-- One successful fetch-extract-decode-title step of `get_folder_list`
reduces it to `process_rows` on the decoded child rows. -/
theorem gfl_step
    (fetchP : Jar → Str → Option Page × Jar) (uc : Bool) (fuel : Nat) (jar jar₁ : Jar)
    (url : Str) (page : Page) (enc dec : Str) (fa first : Json) (fname : Str)
    (hfetch : fetchP jar url = (some page, jar₁))
    (hex : extract_encoded_data page.scripts = .ok enc)
    (hun : unicode_unescape enc = .ok dec)
    (hjson : json_loads dec = .ok fa)
    (hidx : json_index fa 0 = .ok first)
    (hti : parse_title page.title = .ok fname) :
    get_folder_list fetchP uc (fuel + 1) jar url =
      process_rows (fun u j => get_folder_list fetchP uc fuel j u) url fname
        (if uc then jar₁ else [])
        (match first with | .null => Json.arr [] | _ => first) := by
  simp only [get_folder_list, hfetch, hex, hun, hjson, hidx, hti]
  cases first <;> rfl

/-- Claim C2 (amended): a listing whose decoded root array has a null
first element yields `(True, node)` where the node has an *empty* (but
non-null) children sequence — and the plan produced from that node is
empty: it does not contain the root's own `MkDir` (nothing in the code
ever emits a `MkDir` for the root directory), contrary to the claim's
"exactly one action". -/
theorem empty_listing_round_trip
    (fetchP : Jar → Str → Option Page × Jar) (uc : Bool) (fuel gfuel : Nat)
    (jar jar₁ : Jar) (url : Str) (page : Page) (enc dec : Str) (rest : List Json)
    (fname : Str) (p : FsPath)
    (hfetch : fetchP jar url = (some page, jar₁))
    (hex : extract_encoded_data page.scripts = .ok enc)
    (hun : unicode_unescape enc = .ok dec)
    (hjson : json_loads dec = .ok (.arr (.null :: rest)))
    (hti : parse_title page.title = .ok fname) :
    get_folder_list fetchP uc (fuel + 1) jar url =
      .ok (true, some (Node.mk (.str fname) (.str (url.drop 39)) (.str folder_type) (some [])),
           if uc then jar₁ else []) ∧
    get_directory_structure (gfuel + 1)
      (Node.mk (.str fname) (.str (url.drop 39)) (.str folder_type) (some [])) p = .ok [] := by
  constructor
  · rw [gfl_step fetchP uc fuel jar jar₁ url page enc dec (.arr (.null :: rest)) .null fname
      hfetch hex hun hjson rfl hti]
    rfl
  · rfl

/-- Witness for C2 at the concrete `[null]`-payload fixture. -/
theorem empty_listing_round_trip_witness :
    get_folder_list c2_fetch false (0 + 1) [] c2_url =
      .ok (true, some (Node.mk (.str (("empty").toList)) (.str (c2_url.drop 39))
            (.str folder_type) (some [])),
           if false then [] else []) ∧
    get_directory_structure (0 + 1)
      (Node.mk (.str (("empty").toList)) (.str (c2_url.drop 39)) (.str folder_type) (some []))
      [("out").toList] = .ok [] :=
  empty_listing_round_trip c2_fetch false 0 0 [] [] c2_url c2_page
    (("[null]").toList) (("[null]").toList) [] (("empty").toList) [("out").toList]
    rfl rfl rfl rfl rfl

/-- Counterexample to C2 as stated: for the concrete empty listing the
built node has children `some []`, but the plan is `[]` — not the
claimed singleton containing the root's own `MkDir`. -/
theorem empty_listing_plan_counterexample :
    get_folder_list c2_fetch false 1 [] c2_url = .ok (true, some c2_node, []) ∧
    get_directory_structure 1 c2_node [("out").toList, ("empty").toList] = .ok [] ∧
    get_directory_structure 1 c2_node [("out").toList, ("empty").toList] ≠
      .ok [(none, [("out").toList, ("empty").toList])] := by
  refine ⟨rfl, rfl, ?_⟩
  intro h
  have h' : (Except.ok ([] : List (Option Json × FsPath)) : Except Err _) =
      .ok [((none : Option Json), [("out").toList, ("empty").toList])] := h
  simp at h'

/-- If the entries before a folder-typed row resolve successfully and
the recursive build of that row's folder returns `False`, the whole
entry loop returns `(False, None)` — the already-resolved siblings `ns`
are discarded (lines 123-129 of the source). -/
theorem bc_fail_after
    (recur : Str → Jar → Except Err (Bool × Option Node × Jar))
    (rows₂ : List (Json × Json × Json)) (s : Str) (nm : Json) (t : Option Node) (jar₄ : Jar) :
    ∀ rows₁ jar ns jar₃,
      build_children recur rows₁ true jar = .ok (true, some ns, jar₃) →
      recur (folders_url ++ s) jar₃ = .ok (false, t, jar₄) →
      build_children recur (rows₁ ++ (Json.str s, nm, Json.str folder_type) :: rows₂) true jar =
        .ok (false, none, jar₄) := by
  intro rows₁
  induction rows₁ with
  | nil =>
    intro jar ns jar₃ h hfail
    simp only [build_children, Except.ok.injEq, Prod.mk.injEq] at h
    obtain ⟨-, -, hj⟩ := h
    subst hj
    simp [build_children, json_eq_str, hfail]
  | cons row rows₁ ih =>
    intro jar ns jar₃ h hfail
    obtain ⟨fid, nm', ty⟩ := row
    simp only [List.cons_append]
    simp only [build_children] at h ⊢
    split at h
    · -- folder-typed head
      rename_i hty
      rw [if_pos hty]
      split at h
      · rename_i s'
        split at h
        · exact absurd h (by simp)
        · rename_i heq
          split at h
          · rename_i hrc
            subst hrc
            split at h
            · rename_i n
              split at h
              · exact absurd h (by simp)
              · rename_i heq₂
                simp only [Except.ok.injEq, Prod.mk.injEq] at h
                obtain ⟨hb, hcs, hj⟩ := h
                rename_i b₂ cs₂ jar₂
                subst hb
                subst hj
                cases cs₂ with
                | none => exact absurd hcs (by simp)
                | some l =>
                  rw [ih _ _ _ heq₂ hfail]
                  rfl
            · exact absurd h (by simp)
          · rename_i hrc
            simp only [Except.ok.injEq, Prod.mk.injEq] at h
            simp only [Bool.not_eq_true] at hrc
            subst hrc
            exact absurd h.1 (by simp)
      · exact absurd h (by simp)
    · -- file-typed head
      rename_i hty
      rw [if_neg hty]
      simp only [if_true] at h ⊢
      split at h
      · exact absurd h (by simp)
      · rename_i heq₂
        simp only [Except.ok.injEq, Prod.mk.injEq] at h
        obtain ⟨hb, hcs, hj⟩ := h
        rename_i b₂ cs₂ jar₂
        subst hb
        subst hj
        cases cs₂ with
        | none => exact absurd hcs (by simp)
        | some l =>
          rw [ih _ _ _ heq₂ hfail]
          rfl

/-- Claim C3: whenever the resolution of a nested folder fails (the
recursive `get_folder_list` returns `False`), the entire build returns
`(False, None)`: the caller receives no tree at all, and the
already-resolved sibling subtrees `ns` are discarded rather than
returned in any partial form. -/
theorem nested_folder_failure_discards_tree
    (fetchP : Jar → Str → Option Page × Jar) (uc : Bool) (fuel : Nat)
    (jar jar₁ jar₃ jar₄ : Jar) (url : Str) (page : Page) (enc dec : Str)
    (fa first : Json) (fname : Str) (rows ids names types : List Json)
    (rows₁ rows₂ : List (Json × Json × Json)) (s : Str) (nm : Json)
    (ns : List Node) (t : Option Node)
    (hfetch : fetchP jar url = (some page, jar₁))
    (hex : extract_encoded_data page.scripts = .ok enc)
    (hun : unicode_unescape enc = .ok dec)
    (hjson : json_loads dec = .ok fa)
    (hidx : json_index fa 0 = .ok first)
    (hti : parse_title page.title = .ok fname)
    (hiter : json_iter (match first with | .null => Json.arr [] | _ => first) = .ok rows)
    (hids : comprehension_index rows 0 = .ok ids)
    (hnames : comprehension_index rows 2 = .ok names)
    (htypes : comprehension_index rows 3 = .ok types)
    (hzip : ids.zip (names.zip types) = rows₁ ++ (Json.str s, nm, Json.str folder_type) :: rows₂)
    (hok : build_children (fun u j => get_folder_list fetchP uc fuel j u) rows₁ true
        (if uc then jar₁ else []) = .ok (true, some ns, jar₃))
    (hfail : get_folder_list fetchP uc fuel jar₃ (folders_url ++ s) = .ok (false, t, jar₄)) :
    get_folder_list fetchP uc (fuel + 1) jar url = .ok (false, none, jar₄) := by
  rw [gfl_step fetchP uc fuel jar jar₁ url page enc dec fa first fname hfetch hex hun hjson hidx hti]
  simp only [process_rows, hiter, hids, hnames, htypes, hzip]
  rw [bc_fail_after (fun u j => get_folder_list fetchP uc fuel j u) rows₂ s nm t jar₄
    rows₁ _ ns jar₃ hok hfail]
  rfl

/-- Witness for C3: a root with two subfolders where the first resolves
(to `c3_ok_node`) and the second's fetch fails with a non-200 status;
the whole build returns `(False, None)`. -/
theorem nested_folder_failure_discards_tree_witness :
    get_folder_list c3_fetch false (1 + 1) [] c3_root_url = .ok (false, none, []) :=
  nested_folder_failure_discards_tree c3_fetch false 1 [] [] [] [] c3_root_url c3_root_page
    (("[[[\"OKID\",null,\"okname\",\"application/vnd.google-apps.folder\"],[\"BADID\",null,\"badname\",\"application/vnd.google-apps.folder\"]]]").toList)
    (("[[[\"OKID\",null,\"okname\",\"application/vnd.google-apps.folder\"],[\"BADID\",null,\"badname\",\"application/vnd.google-apps.folder\"]]]").toList)
    (Json.arr [Json.arr
      [Json.arr [Json.str (("OKID").toList), Json.null, Json.str (("okname").toList), Json.str folder_type],
       Json.arr [Json.str (("BADID").toList), Json.null, Json.str (("badname").toList), Json.str folder_type]]])
    (Json.arr
      [Json.arr [Json.str (("OKID").toList), Json.null, Json.str (("okname").toList), Json.str folder_type],
       Json.arr [Json.str (("BADID").toList), Json.null, Json.str (("badname").toList), Json.str folder_type]])
    (("root3").toList)
    [Json.arr [Json.str (("OKID").toList), Json.null, Json.str (("okname").toList), Json.str folder_type],
     Json.arr [Json.str (("BADID").toList), Json.null, Json.str (("badname").toList), Json.str folder_type]]
    [Json.str (("OKID").toList), Json.str (("BADID").toList)]
    [Json.str (("okname").toList), Json.str (("badname").toList)]
    [Json.str folder_type, Json.str folder_type]
    [(Json.str (("OKID").toList), Json.str (("okname").toList), Json.str folder_type)]
    []
    (("BADID").toList) (Json.str (("badname").toList))
    [c3_ok_node] none
    rfl rfl rfl rfl rfl rfl rfl rfl rfl rfl rfl rfl rfl

/-- A positional comprehension succeeds when every row is an array long
enough. -/
theorem comprehension_index_ok (n : Nat) :
    ∀ rows : List Json, (∀ r ∈ rows, ∃ l, r = Json.arr l ∧ n < l.length) →
      ∃ vs, comprehension_index rows n = .ok vs := by
  intro rows
  induction rows with
  | nil => intro _; exact ⟨[], rfl⟩
  | cons r rest ih =>
    intro hall
    obtain ⟨l, hl, hlen⟩ := hall r (by simp)
    subst hl
    obtain ⟨vs, hvs⟩ := ih (fun r hr => hall r (by simp [hr]))
    refine ⟨l.get ⟨n, hlen⟩ :: vs, ?_⟩
    simp [comprehension_index, json_index, List.getElem?_eq_getElem hlen, hvs]

/-- A positional comprehension over array rows raises `IndexError` when
some row is too short. -/
theorem comprehension_index_err (n : Nat) :
    ∀ rows : List Json, (∀ r ∈ rows, ∃ l, r = Json.arr l) →
      (∃ r ∈ rows, ∃ l, r = Json.arr l ∧ l.length ≤ n) →
      comprehension_index rows n = .error .indexError := by
  intro rows
  induction rows with
  | nil =>
    rintro _ ⟨r, hr, -⟩
    exact absurd hr (by simp)
  | cons r rest ih =>
    rintro hall ⟨rb, hrb, lb, hlb, hlen⟩
    obtain ⟨l, hl⟩ := hall r (by simp)
    subst hl
    rcases List.mem_cons.mp hrb with heq | hmem
    · subst heq
      injection hlb with hlb
      subst hlb
      have hg : l[n]? = none := List.getElem?_eq_none hlen
      simp [comprehension_index, json_index, hg]
    · cases hg : l[n]? with
      | none => simp [comprehension_index, json_index, hg]
      | some v =>
        have htail := ih (fun r hr => hall r (by simp [hr])) ⟨rb, hmem, lb, hlb, hlen⟩
        simp [comprehension_index, json_index, hg, htail]

/-- Claim C5 (amended): a decoded listing containing a child row of
malformed shape — an array missing the positional elements for id
(index 0), name (index 2) or type (index 3) — makes the parse fail with
Python's `IndexError`.  The error does *not* carry the index of the
offending row: it is the constant `IndexError("list index out of
range")` raised inside one of the three comprehensions (lines 94-96),
contrary to the claim's "carries the index" (see the counterexample). -/
theorem malformed_row_raises_index_error
    (fetchP : Jar → Str → Option Page × Jar) (uc : Bool) (fuel : Nat)
    (jar jar₁ : Jar) (url : Str) (page : Page) (enc dec : Str)
    (fa first : Json) (fname : Str) (rows : List Json)
    (hfetch : fetchP jar url = (some page, jar₁))
    (hex : extract_encoded_data page.scripts = .ok enc)
    (hun : unicode_unescape enc = .ok dec)
    (hjson : json_loads dec = .ok fa)
    (hidx : json_index fa 0 = .ok first)
    (hti : parse_title page.title = .ok fname)
    (hiter : json_iter (match first with | .null => Json.arr [] | _ => first) = .ok rows)
    (hall : ∀ r ∈ rows, ∃ l, r = Json.arr l)
    (hbad : ∃ r ∈ rows, ∃ l, r = Json.arr l ∧ l.length < 4) :
    get_folder_list fetchP uc (fuel + 1) jar url = .error .indexError := by
  rw [gfl_step fetchP uc fuel jar jar₁ url page enc dec fa first fname hfetch hex hun hjson hidx hti]
  simp only [process_rows, hiter]
  by_cases h0 : ∃ r ∈ rows, ∃ l, r = Json.arr l ∧ l.length ≤ 0
  · rw [comprehension_index_err 0 rows hall h0]
  · push_neg at h0
    have hall0 : ∀ r ∈ rows, ∃ l, r = Json.arr l ∧ 0 < l.length := by
      intro r hr
      obtain ⟨l, hl⟩ := hall r hr
      exact ⟨l, hl, h0 r hr l hl⟩
    obtain ⟨ids, hids⟩ := comprehension_index_ok 0 rows hall0
    rw [hids]
    by_cases h2 : ∃ r ∈ rows, ∃ l, r = Json.arr l ∧ l.length ≤ 2
    · rw [comprehension_index_err 2 rows hall h2]
    · push_neg at h2
      have hall2 : ∀ r ∈ rows, ∃ l, r = Json.arr l ∧ 2 < l.length := by
        intro r hr
        obtain ⟨l, hl⟩ := hall r hr
        exact ⟨l, hl, h2 r hr l hl⟩
      obtain ⟨names, hnames⟩ := comprehension_index_ok 2 rows hall2
      rw [hnames]
      have h3 : ∃ r ∈ rows, ∃ l, r = Json.arr l ∧ l.length ≤ 3 := by
        obtain ⟨r, hr, l, hl, hlen⟩ := hbad
        exact ⟨r, hr, l, hl, by omega⟩
      rw [comprehension_index_err 3 rows hall h3]

/-- Witness for C5 at the concrete fixture whose only row is `["x"]`. -/
theorem malformed_row_raises_index_error_witness :
    get_folder_list c5a_fetch false (0 + 1) [] c5_url = .error .indexError :=
  malformed_row_raises_index_error c5a_fetch false 0 [] [] c5_url c5a_page
    (("[[[\"x\"]]]").toList) (("[[[\"x\"]]]").toList)
    (Json.arr [Json.arr [Json.arr [Json.str [('x' : Char)]]]])
    (Json.arr [Json.arr [Json.str [('x' : Char)]]])
    (("bad").toList)
    [Json.arr [Json.str [('x' : Char)]]]
    rfl rfl rfl rfl rfl rfl rfl
    (by
      intro r hr
      simp only [List.mem_singleton] at hr
      subst hr
      exact ⟨[Json.str [('x' : Char)]], rfl⟩)
    ⟨Json.arr [Json.str [('x' : Char)]], by simp, [Json.str [('x' : Char)]], rfl, by simp⟩

/-- Counterexample to C5 as stated: two listings whose offending rows
are at *different* indices (index 0 in `c5a_page`, whose only row is
`["x"]`; index 1 in `c5b_page`, whose row 0 is well formed and row 1 is
`["y"]`) produce *identical* errors, so the error cannot carry the
index of the offending row. -/
theorem malformed_row_error_counterexample :
    get_folder_list c5a_fetch false 1 [] c5_url = .error .indexError ∧
    get_folder_list c5b_fetch false 1 [] c5_url = .error .indexError ∧
    get_folder_list c5a_fetch false 1 [] c5_url = get_folder_list c5b_fetch false 1 [] c5_url :=
  ⟨rfl, rfl, rfl⟩

/-! ### Claim C1 -/

/-- Claim C1 (amended): building the spec's two-level synthetic tree
(one root folder containing one subfolder with two files, plus one file
directly in the root) and flattening it yields exactly
`MkDir(root/sub)`, `FetchFile(idA, root/sub/fileA)`,
`FetchFile(idB, root/sub/fileB)`, `FetchFile(idC, root/fileC)`, in that
order — without the claimed leading `MkDir(root)`: neither
`get_directory_structure` nor `download_folder` ever emits an action
for the root directory itself (it only comes into being through
`parents=True` when `root/sub` is created). -/
theorem two_level_tree_plan :
    get_folder_list c1_fetch false 3 [] c1_root_url = .ok (true, some c1_root_node, []) ∧
    get_directory_structure 3 c1_root_node [("root").toList] = .ok c1_actual_plan ∧
    download_folder_plan c1_fetch 3 [] c1_root_url [] true = .ok (some c1_actual_plan) :=
  ⟨rfl, rfl, rfl⟩

/-- Counterexample to C1 as stated: the plan actually produced for the
two-level tree is `c1_actual_plan` (four actions), which differs from
the claimed five-action sequence `c1_claimed_plan` beginning with
`MkDir(root)`. -/
theorem two_level_tree_plan_counterexample :
    get_folder_list c1_fetch false 3 [] c1_root_url = .ok (true, some c1_root_node, []) ∧
    get_directory_structure 3 c1_root_node [("root").toList] = .ok c1_actual_plan ∧
    c1_actual_plan ≠ c1_claimed_plan := by
  refine ⟨rfl, rfl, ?_⟩
  intro h
  have hlen := congrArg List.length h
  simp [c1_actual_plan, c1_claimed_plan] at hlen
